import Mathlib

/-!
Verification of `gftt/metrics.py` (glacier feature-tracking error metrics).

Velocities and raster samples are embedded as rational numbers (Python float
values embed exactly into ℚ); kernel-density values are real numbers, since
the confidence-threshold formula involves the exponential function.  Python
exceptions are embedded as an explicit error type and fallible paths return
`Except`.
-/

/-- Python exceptions raised by the module, plus failures that originate
inside an external library (scipy, numpy) and propagate unchanged. -/
inductive PyError where
  | typeError (msg : String)
  | valueError (msg : String)
  | attributeError (msg : String)
  | nameError (msg : String)
  | libraryError (lib msg : String)
deriving DecidableEq, Repr

/-- `true` exactly for errors raised inside an external library (not by a
`raise` statement of this module). -/
def PyError.isLibraryInternal : PyError → Bool
  | .libraryError _ _ => true
  | _ => false

/-- `v[v > -9998]`, the no-data removal applied to a clipped raster
(`metrics.py` lines 52-53 and 57): keeps exactly the entries strictly above
-9998, in order.  Applied to each component array separately. -/
def removeNoData (v : List ℚ) : List ℚ :=
  v.filter (fun x => -9998 < x)

/-- `np.vstack([vx, vy])` (`metrics.py` line 63), embedded as pairing of two
equal-length columns; numpy raises a library error when the lengths differ. -/
def vstack2 (vx vy : List ℚ) : Except PyError (List (ℚ × ℚ)) :=
  if vx.length = vy.length then .ok (vx.zip vy)
  else .error (.libraryError "numpy" "all the input array dimensions must match exactly")

/-- Column selection `rng.choice(xy, size=max_n, replace=False, axis=1)`
(`metrics.py` line 69): `pick` is the list of column indices the generator
drew.  The draw itself is external randomness; theorems quantify over every
admissible `pick` (right length, no repetition, in range). -/
def chooseCols (xy : List (ℚ × ℚ)) (pick : List ℕ) : List (ℚ × ℚ) :=
  pick.map (fun i => xy.getD i (0, 0))

/-- The subsampling step of `off_ice_errors` (`metrics.py` lines 64-71):
when the sample exceeds `max_n`, the density-fitting sample becomes the
drawn columns and the full sample is retained (as `vx_full`/`vy_full`, used
only by the plotting branch); otherwise the sample passes through unchanged
and nothing extra is retained. -/
def offIceFit (xy : List (ℚ × ℚ)) (max_n : ℕ) (pick : List ℕ) :
    List (ℚ × ℚ) × Option (List (ℚ × ℚ)) :=
  if max_n < xy.length then (chooseCols xy pick, some xy) else (xy, none)

/-- `gaussian_kde(xy)(xy)` (`metrics.py` lines 72 and 198).  The density
model itself is external (scipy); it is abstracted as `kdeFun`.  Modelled
from scipy's documented behaviour on a zero-observation dataset: the call
fails inside the library (the module performs no emptiness check of its
own). -/
def gaussianKdeSelf (kdeFun : List (ℚ × ℚ) → List ℝ) (xy : List (ℚ × ℚ)) :
    Except PyError (List ℝ) :=
  if xy.isEmpty then
    .error (.libraryError "scipy" "dataset input should have multiple elements")
  else
    .ok (kdeFun xy)

/-- Python `max` over a nonempty array (`max(z)`, `metrics.py` lines 75 and
202); the empty case (where Python would raise) is given the junk value 0
and always excluded by hypotheses. -/
noncomputable def pyMax : List ℝ → ℝ
  | [] => 0
  | x :: xs => xs.foldl max x

/-- `thres_multiplier = np.e ** (thres_sigma ** 2 / 2)` (`metrics.py` lines
74 and 201); `np.e ** t` is the real exponential `exp t`. -/
noncomputable def thres_multiplier (σ : ℝ) : ℝ :=
  Real.exp (σ ^ 2 / 2)

/-- `thres = max(z) / thres_multiplier` (`metrics.py` lines 75 and 202). -/
noncomputable def thres (z : List ℝ) (σ : ℝ) : ℝ :=
  pyMax z / thres_multiplier σ

/-- `thres_idx = z >= thres` (`metrics.py` lines 76 and 203): the boolean
partition, index-aligned with `z`; entry `i` holds exactly when
`z[i] ≥ thres`. -/
def thres_idx (z : List ℝ) (σ : ℝ) : List Prop :=
  z.map (fun zi => thres z σ ≤ zi)

/-- Vector-mode body of `off_ice_errors` (case 1, `metrics.py` lines 48-53
and 62-92), starting from the two clipped raster arrays: filter each
component independently, stack, subsample past `max_n`, self-evaluate the
KDE and threshold.  Plotting is omitted (pure rendering); the value returned
to the caller is `(vx, vy, z, thres_idx)` built from the (possibly
subsampled) arrays. -/
def off_ice_errors_vec (vxc vyc : List ℚ) (max_n : ℕ) (pick : List ℕ)
    (kdeFun : List (ℚ × ℚ) → List ℝ) (σ : ℝ) :
    Except PyError (List ℚ × List ℚ × List ℝ × List Prop) :=
  let vx := removeNoData vxc
  let vy := removeNoData vyc
  match vstack2 vx vy with
  | .error e => .error e
  | .ok xy0 =>
    let fit := offIceFit xy0 max_n pick
    match gaussianKdeSelf kdeFun fit.1 with
    | .error e => .error e
    | .ok z => .ok ((fit.1.map Prod.fst), (fit.1.map Prod.snd), z, thres_idx z σ)

/-- Sample construction of `syn_shift_errors` (`metrics.py` lines 177-193):
the validity mask is computed from the measured `vx` alone
(`valid_idx = vx > -9998`; the `vy` check is commented out in the source),
applied to all four flattened arrays, then the componentwise differences are
taken.  The four arrays are position-aligned (numpy arrays of one shape). -/
def synShiftSample (ref_vx vx ref_vy vy : List ℚ) : List ℚ × List ℚ :=
  let quads := (vx.zip ref_vx).zip (vy.zip ref_vy)
  let valid := quads.filter (fun q => -9998 < q.1.1)
  (valid.map (fun q => q.1.1 - q.1.2), valid.map (fun q => q.2.1 - q.2.2))

/-- `syn_shift_errors` (`metrics.py` lines 176-216) after the four arrays
are supplied: build the difference sample, self-evaluate the KDE on it and
threshold.  Plotting is omitted. -/
def syn_shift_errors (ref_vx vx ref_vy vy : List ℚ)
    (kdeFun : List (ℚ × ℚ) → List ℝ) (σ : ℝ) :
    Except PyError (List ℚ × List ℚ × List ℝ × List Prop) :=
  let s := synShiftSample ref_vx vx ref_vy vy
  match gaussianKdeSelf kdeFun (s.1.zip s.2) with
  | .error e => .error e
  | .ok z => .ok (s.1, s.2, z, thres_idx z σ)

/-- The pairing the spec's words describe for vector mode (joint removal:
a position survives exactly when neither component is no-data).  Stated for
comparison with the source's independent filtering; it is NOT what the code
computes. -/
def specJointSample (vx vy : List ℚ) : List (ℚ × ℚ) :=
  (vx.zip vy).filter (fun p => -9998 < p.1 ∧ -9998 < p.2)

/-- `create_synthetic_offset` (`metrics.py` lines 120-149) with the image
shape `(h, w)` already read from the raster; block arithmetic per pixel:
`bi = r / B`, `bj = c / B` (integer division, as numpy `//` on nonnegative
indices). -/
def create_synthetic_offset (h w : ℕ) (mode : String) (block_size : ℕ) :
    Except PyError (List (List ℚ) × List (List ℚ)) :=
  if mode = "subpixel" then
    .ok ((List.range h).map (fun _r => (List.range w).map
            (fun c => (1 / 10 : ℚ) * (c / block_size : ℕ) + 1 / 10)),
         (List.range h).map (fun r => (List.range w).map
            (fun _c => -((1 / 10 : ℚ) * (r / block_size : ℕ)) - 1 / 10)))
  else if mode = "multipixel" then
    .ok ((List.range h).map (fun _r => (List.range w).map
            (fun c => (1 : ℚ) + (c / block_size : ℕ))),
         (List.range h).map (fun r => (List.range w).map
            (fun _c => (-1 : ℚ) - (r / block_size : ℕ))))
  else
    .error (.valueError "Mode is not defined.")

/-- The x-shift array of a successful `create_synthetic_offset` call (junk
`[]` on the error branch, excluded by hypotheses). -/
def okFst (r : Except PyError (List (List ℚ) × List (List ℚ))) : List (List ℚ) :=
  match r with
  | .ok p => p.1
  | .error _ => []

/-- The y-shift array of a successful `create_synthetic_offset` call. -/
def okSnd (r : Except PyError (List (List ℚ) × List (List ℚ))) : List (List ℚ) :=
  match r with
  | .ok p => p.2
  | .error _ => []

/-- Index clamping of `scipy.ndimage.map_coordinates` boundary mode
`nearest`: a neighbour index outside `[0, n-1]` reads the nearest edge
sample. -/
def clampIdx (n : ℕ) (i : ℤ) : ℕ :=
  min (max i 0).toNat (n - 1)

/-- Order-1 (bilinear) sampling of `map_coordinates(data, yx, order=1,
mode="nearest")` at one fractional coordinate: the four neighbours at the
floor corner, edge-clamped, combined with the bilinear weights. -/
def bilinearNearest (data : ℕ → ℕ → ℚ) (h w : ℕ) (y x : ℚ) : ℚ :=
  let y0 : ℤ := ⌊y⌋
  let x0 : ℤ := ⌊x⌋
  let fy : ℚ := y - y0
  let fx : ℚ := x - x0
  let v00 := data (clampIdx h y0) (clampIdx w x0)
  let v01 := data (clampIdx h y0) (clampIdx w (x0 + 1))
  let v10 := data (clampIdx h (y0 + 1)) (clampIdx w x0)
  let v11 := data (clampIdx h (y0 + 1)) (clampIdx w (x0 + 1))
  (1 - fy) * ((1 - fx) * v00 + fx * v01) + fy * ((1 - fx) * v10 + fx * v11)

/-- `apply_synthetic_offset` (`metrics.py` lines 152-174) with the image
data and shape already read: output pixel `(r, c)` samples the source at
`(r + shift_ary[r,c], c + shift_arx[r,c])` with the given interpolation
(order 1 embedded), reshaped back to the image shape. -/
def apply_synthetic_offset (data : ℕ → ℕ → ℚ) (h w : ℕ)
    (shift_arx shift_ary : ℕ → ℕ → ℚ) : List (List ℚ) :=
  (List.range h).map (fun (r : ℕ) => (List.range w).map
    (fun (c : ℕ) => bilinearNearest data h w ((r : ℚ) + shift_ary r c) ((c : ℚ) + shift_arx r c)))

/-- The names bound at module top level in `gftt/metrics.py`: the imports of
lines 1-9 and the six function definitions.  `features` is not among them. -/
def moduleTopLevelNames : List String :=
  ["np", "gaussian_kde", "map_coordinates", "gpd", "mapping", "rasterio", "mask",
   "plt", "cm", "off_ice_errors", "plot_off_ice_errors", "create_synthetic_offset",
   "apply_synthetic_offset", "syn_shift_errors", "mask_by_shp", "compute_buffer"]

/-- Python global-name resolution inside a `metrics.py` function body: a name
not bound at module top level raises `NameError`. -/
def resolveGlobal (n : String) : Except PyError Unit :=
  if n ∈ moduleTopLevelNames then .ok () else
    .error (.nameError ("name " ++ n ++ " is not defined"))

/-- The two dataset representations `mask_by_shp` accepts (line 239):
a `rasterio.io.DatasetReader` or anything else carrying `GetGeoTransform`
(gdal). -/
inductive DsKind where
  | rasterioReader
  | gdalDataset
deriving DecidableEq, Repr

/-- `mask_by_shp` (`metrics.py` lines 218-247) on arbitrary inputs: either
transform branch succeeds (line 240 or 242-243), then line 244 evaluates
`features.rasterize`, which first resolves the global name `features`.  The
rasterize/mask tail (never reached) is represented by `.ok ()`. -/
def mask_by_shp {Geom Arr : Type} (_geom : Geom) (_array : Arr) (ds : DsKind) :
    Except PyError Unit :=
  match ds with
  | .rasterioReader =>
    match resolveGlobal "features" with
    | .error e => .error e
    | .ok _ => .ok ()
  | .gdalDataset =>
    match resolveGlobal "features" with
    | .error e => .error e
    | .ok _ => .ok ()

/-- An axes object; `fresh` marks one created by `plt.subplots` inside the
call. -/
structure Axes where
  fresh : Bool
deriving DecidableEq, Repr

/-- Scalar-mode tail of `off_ice_errors` (case 2, `metrics.py` lines
94-101): the fresh axes is created only under `plot`; the histogram call
`ax.hist(v ** 2, 100)` is unconditional, so a `None` axes raises
`AttributeError`.  The histogram's return (a rendering artefact) is
represented by `Unit`. -/
def off_ice_errors_scalar (v : List ℚ) (plot : Bool) (ax : Option Axes) :
    Except PyError (List ℚ × Unit) :=
  let ax1 := if plot then (if ax.isNone then some ⟨true⟩ else ax) else ax
  match ax1 with
  | none => .error (.attributeError "NoneType object has no attribute hist")
  | some _ => .ok (v, ())

/-! ## Helper lemmas -/

/-- Indexing a mapped list below its length. -/
theorem getD_map_of_lt {α β : Type} (f : α → β) (l : List α) (i : ℕ)
    (h : i < l.length) (d : β) (d' : α) : (l.map f).getD i d = f (l.getD i d') := by
  simp [List.getD_eq_getElem?_getD, List.getElem?_map, List.getElem?_eq_getElem, h]

/-- Indexing a function table built over `List.range`. -/
theorem getD_range_map {β : Type} (n : ℕ) (f : ℕ → β) (i : ℕ) (h : i < n) (d : β) :
    ((List.range n).map f).getD i d = f i := by
  simp [List.getD_eq_getElem?_getD, List.getElem?_map, List.getElem?_range, h]

/-- Folding `max` never goes below the seed. -/
theorem le_foldl_max (xs : List ℝ) (a : ℝ) : a ≤ xs.foldl max a := by
  induction xs generalizing a with
  | nil => exact le_refl a
  | cons y ys ih => exact le_trans (le_max_left a y) (ih (max a y))

/-- Python `max` of a nonempty list of nonnegative reals is nonnegative. -/
theorem pyMax_nonneg (z : List ℝ) (hz : z ≠ []) (hnn : ∀ x ∈ z, 0 ≤ x) :
    0 ≤ pyMax z := by
  cases z with
  | nil => exact absurd rfl hz
  | cons x xs =>
    exact le_trans (hnn x (List.mem_cons_self x xs)) (le_foldl_max xs x)

/-! ## C1 -/

/-- C1 counterexample.  The claim states that vector-mode samples are built
by joint removal: a position survives exactly when neither component is the
no-data sentinel, and the two returned sequences always have equal length.
The code filters each component independently in `off_ice_errors`
(`vx[vx > -9998]`, `vy[vy > -9998]`), so (a) the filtered lengths can differ,
(b) the built pairs differ from the jointly-filtered pairs, and (c)
`syn_shift_errors` masks by `vx` validity alone, keeping a position whose
`vy` is the sentinel. -/
theorem joint_removal_cex :
    (removeNoData [1, 2]).length ≠ (removeNoData [-9999, -9999]).length ∧
    (removeNoData [1, -9999]).zip (removeNoData [-9999, 2]) ≠
      specJointSample [1, -9999] [-9999, 2] ∧
    (synShiftSample [0, 0] [1, 1] [0, 0] [1, -9999]).1.length ≠
      (specJointSample [1, 1] [1, -9999]).length := by
  refine ⟨?_, ?_, ?_⟩ <;> decide

/-- C1 (amended): each component of the off-ice vector sample is filtered
independently — the retained count of `vx` is the number of valid `vx`
entries alone (and likewise for `vy`, so the lengths need not agree) and
every retained entry is a valid entry of its own component; in
`syn_shift_errors` the two difference sequences do have equal length, but a
position is retained exactly when the measured `vx` there is valid,
regardless of `vy`. -/
theorem independent_filtering (vx vy ref_vx ref_vy : List ℚ) :
    (removeNoData vx).length = vx.countP (fun x => decide (-9998 < x)) ∧
    (removeNoData vy).length = vy.countP (fun x => decide (-9998 < x)) ∧
    (∀ x ∈ removeNoData vx, -9998 < x ∧ x ∈ vx) ∧
    (synShiftSample ref_vx vx ref_vy vy).1.length =
      (synShiftSample ref_vx vx ref_vy vy).2.length ∧
    (synShiftSample ref_vx vx ref_vy vy).1.length =
      ((vx.zip ref_vx).zip (vy.zip ref_vy)).countP (fun q => decide (-9998 < q.1.1)) := by
  refine ⟨?_, ?_, ?_, ?_, ?_⟩
  · simp [removeNoData, List.countP_eq_length_filter]
  · simp [removeNoData, List.countP_eq_length_filter]
  · intro x hx
    rw [removeNoData, List.mem_filter] at hx
    exact ⟨by exact_mod_cast of_decide_eq_true hx.2, hx.1⟩
  · simp [synShiftSample]
  · simp [synShiftSample, List.countP_eq_length_filter]

/-! ## C2 -/

/-- C2: for every non-empty density sample `z` and sigma level `σ`, the
confidence threshold is `max(z) / exp(σ² / 2)` exactly, and the returned
partition is index-aligned with `z` and marks observation `i` as inlier
exactly when `z[i] ≥ thres` — in particular a tie at the threshold is an
inlier.  `thres` and `thres_idx` are the shared thresholding step of both
`off_ice_errors` (vector mode) and `syn_shift_errors`, which apply them
verbatim (`off_ice_errors_vec`, `syn_shift_errors`). -/
theorem thres_partition_spec (z : List ℝ) (σ : ℝ) (_hz : z ≠ []) :
    thres z σ = pyMax z / Real.exp (σ ^ 2 / 2) ∧
    (thres_idx z σ).length = z.length ∧
    (∀ i, i < z.length → ((thres_idx z σ).getD i False ↔ thres z σ ≤ z.getD i 0)) ∧
    (∀ i, i < z.length → z.getD i 0 = thres z σ → (thres_idx z σ).getD i False) := by
  refine ⟨rfl, by simp [thres_idx], ?_, ?_⟩
  · intro i hi
    rw [thres_idx, getD_map_of_lt _ _ _ hi _ 0]
  · intro i hi he
    rw [thres_idx, getD_map_of_lt _ _ _ hi _ 0, he]

/-- Witness for C2 at the sample `z = [2]`, `σ = 0`. -/
theorem thres_partition_spec_witness :
    (([(2 : ℝ)] : List ℝ) ≠ []) ∧
    (thres [(2 : ℝ)] 0 = pyMax [(2 : ℝ)] / Real.exp ((0 : ℝ) ^ 2 / 2) ∧
     (thres_idx [(2 : ℝ)] 0).length = ([(2 : ℝ)] : List ℝ).length ∧
     (∀ i, i < ([(2 : ℝ)] : List ℝ).length →
       ((thres_idx [(2 : ℝ)] 0).getD i False ↔
         thres [(2 : ℝ)] 0 ≤ ([(2 : ℝ)] : List ℝ).getD i 0)) ∧
     (∀ i, i < ([(2 : ℝ)] : List ℝ).length →
       ([(2 : ℝ)] : List ℝ).getD i 0 = thres [(2 : ℝ)] 0 →
       (thres_idx [(2 : ℝ)] 0).getD i False)) :=
  ⟨by simp, thres_partition_spec [(2 : ℝ)] 0 (by simp)⟩

/-! ## C4 -/

/-- The threshold is antitone in the sigma level on nonnegative samples. -/
theorem thres_antitone (z : List ℝ) (σ1 σ2 : ℝ) (h0 : 0 ≤ σ1) (h12 : σ1 ≤ σ2)
    (hz : z ≠ []) (hnn : ∀ x ∈ z, 0 ≤ x) : thres z σ2 ≤ thres z σ1 := by
  apply div_le_div_of_nonneg_left (pyMax_nonneg z hz hnn) (Real.exp_pos _)
  exact Real.exp_le_exp.mpr
    (div_le_div_of_nonneg_right (pow_le_pow_left₀ h0 h12 2) (by norm_num))

/-- C4: for a fixed sample with its fixed (nonnegative) density values,
thresholding is monotone in the sigma level: whenever `0 ≤ σ1 ≤ σ2`, every
observation marked inlier at `σ1` is marked inlier at `σ2` (hence the inlier
count is non-decreasing in `σ`). -/
theorem thres_idx_monotone (z : List ℝ) (σ1 σ2 : ℝ) (h0 : 0 ≤ σ1) (h12 : σ1 ≤ σ2)
    (hnn : ∀ x ∈ z, 0 ≤ x) (i : ℕ) (hi : i < z.length)
    (hin : (thres_idx z σ1).getD i False) : (thres_idx z σ2).getD i False := by
  rw [thres_idx, getD_map_of_lt _ _ _ hi _ 0] at hin ⊢
  have hz : z ≠ [] := by intro h; rw [h] at hi; simp at hi
  exact le_trans (thres_antitone z σ1 σ2 h0 h12 hz hnn) hin

/-- Witness for C4 at `z = [1]`, `σ1 = 0`, `σ2 = 1`, `i = 0`. -/
theorem thres_idx_monotone_witness : (thres_idx [(1 : ℝ)] 1).getD 0 False := by
  have h : (thres_idx [(1 : ℝ)] 0).getD 0 False := by
    simp [thres_idx, thres, pyMax, thres_multiplier, Real.exp_zero]
  exact thres_idx_monotone [(1 : ℝ)] 0 1 le_rfl zero_le_one (by simp) 0 (by simp) h

/-! ## C3 -/

/-- C3: when the (filtered, stacked) vector sample has more than `max_n`
points, the sample used for density fitting and thresholding is exactly the
`max_n` drawn columns — `max_n` points taken without replacement (distinct
draws, so distinct sample points whenever the original points are distinct),
each a point of the original sample — while the full original sample is
retained unchanged alongside it (the pipeline `off_ice_errors_vec` feeds only
the fitted component to the KDE/threshold; the retained component feeds only
the plotting branch).  At or below `max_n` the sample passes through
unchanged and nothing extra is retained.  The hypotheses on `pick` are
numpy's documented contract for `rng.choice(·, size=max_n, replace=False)`:
`max_n` distinct in-range column indices, drawn uniformly. -/
theorem offIceFit_subsample_spec (xy : List (ℚ × ℚ)) (max_n : ℕ) (pick : List ℕ)
    (hlen : pick.length = max_n) (hnd : pick.Nodup)
    (hin : ∀ i ∈ pick, i < xy.length) :
    (max_n < xy.length →
      (offIceFit xy max_n pick).1 = chooseCols xy pick ∧
      (offIceFit xy max_n pick).1.length = max_n ∧
      (offIceFit xy max_n pick).2 = some xy ∧
      (∀ p ∈ (offIceFit xy max_n pick).1, p ∈ xy) ∧
      (xy.Nodup → (offIceFit xy max_n pick).1.Nodup)) ∧
    (xy.length ≤ max_n → offIceFit xy max_n pick = (xy, none)) := by
  constructor
  · intro hgt
    rw [offIceFit, if_pos hgt]
    refine ⟨rfl, ?_, rfl, ?_, ?_⟩
    · simp [chooseCols, hlen]
    · intro p hp
      rw [chooseCols, List.mem_map] at hp
      obtain ⟨i, hi, rfl⟩ := hp
      have := hin i hi
      rw [List.getD_eq_getElem?_getD, List.getElem?_eq_getElem this]
      exact List.getElem_mem _
    · intro hxy
      rw [chooseCols]
      apply List.Nodup.map_on ?_ hnd
      intro i hi j hj hf
      have hi' := hin i hi
      have hj' := hin j hj
      rw [List.getD_eq_getElem?_getD, List.getElem?_eq_getElem hi',
          List.getD_eq_getElem?_getD, List.getElem?_eq_getElem hj'] at hf
      simpa using (List.Nodup.getElem_inj_iff hxy).mp (by simpa using hf)
  · intro hle
    rw [offIceFit, if_neg (by omega)]

/-- Witness for C3: a 3-point sample with cap 2 and the draw `[0, 2]`. -/
theorem offIceFit_subsample_spec_witness :
    (([0, 2] : List ℕ).length = 2) ∧ (([0, 2] : List ℕ).Nodup) ∧
    (∀ i ∈ ([0, 2] : List ℕ), i < ([(1, 2), (3, 4), (5, 6)] : List (ℚ × ℚ)).length) ∧
    ((2 < ([(1, 2), (3, 4), (5, 6)] : List (ℚ × ℚ)).length →
      (offIceFit [(1, 2), (3, 4), (5, 6)] 2 [0, 2]).1 =
        chooseCols [(1, 2), (3, 4), (5, 6)] [0, 2] ∧
      (offIceFit [(1, 2), (3, 4), (5, 6)] 2 [0, 2]).1.length = 2 ∧
      (offIceFit [(1, 2), (3, 4), (5, 6)] 2 [0, 2]).2 = some [(1, 2), (3, 4), (5, 6)] ∧
      (∀ p ∈ (offIceFit [(1, 2), (3, 4), (5, 6)] 2 [0, 2]).1,
        p ∈ ([(1, 2), (3, 4), (5, 6)] : List (ℚ × ℚ))) ∧
      (([(1, 2), (3, 4), (5, 6)] : List (ℚ × ℚ)).Nodup →
        (offIceFit [(1, 2), (3, 4), (5, 6)] 2 [0, 2]).1.Nodup)) ∧
     (([(1, 2), (3, 4), (5, 6)] : List (ℚ × ℚ)).length ≤ 2 →
      offIceFit [(1, 2), (3, 4), (5, 6)] 2 [0, 2] = ([(1, 2), (3, 4), (5, 6)], none))) :=
  ⟨by decide, by decide, by decide,
   offIceFit_subsample_spec [(1, 2), (3, 4), (5, 6)] 2 [0, 2] (by decide) (by decide) (by decide)⟩

/-! ## C5 -/

/-- A table built over `List.range` has the expected rectangular shape. -/
theorem shape_range_map {β : Type} (h w : ℕ) (f : ℕ → ℕ → β) :
    ((List.range h).map (fun r => (List.range w).map (f r))).length = h ∧
    ∀ row ∈ (List.range h).map (fun r => (List.range w).map (f r)), row.length = w := by
  refine ⟨by simp, ?_⟩
  intro row hrow
  rw [List.mem_map] at hrow
  obtain ⟨r, _, rfl⟩ := hrow
  simp

/-- C5: for every image shape `(h, w)`, block size `B > 0` and pixel
`(r, c)` inside the image, with `bi = r / B` and `bj = c / B` (integer
division), the generated shifts are `x = 0.1·bj + 0.1`, `y = −0.1·bi − 0.1`
in `subpixel` mode and `x = 1 + bj`, `y = −1 − bi` in `multipixel` mode, and
in both modes the two output arrays have the image's shape. -/
theorem create_synthetic_offset_blocks (h w B r c : ℕ) (_hB : 0 < B)
    (hr : r < h) (hc : c < w) :
    (okFst (create_synthetic_offset h w "subpixel" B)).length = h ∧
    (∀ row ∈ okFst (create_synthetic_offset h w "subpixel" B), row.length = w) ∧
    (okSnd (create_synthetic_offset h w "subpixel" B)).length = h ∧
    (∀ row ∈ okSnd (create_synthetic_offset h w "subpixel" B), row.length = w) ∧
    ((okFst (create_synthetic_offset h w "subpixel" B)).getD r []).getD c 0 =
      (1 / 10 : ℚ) * (c / B : ℕ) + 1 / 10 ∧
    ((okSnd (create_synthetic_offset h w "subpixel" B)).getD r []).getD c 0 =
      -((1 / 10 : ℚ) * (r / B : ℕ)) - 1 / 10 ∧
    (okFst (create_synthetic_offset h w "multipixel" B)).length = h ∧
    (∀ row ∈ okFst (create_synthetic_offset h w "multipixel" B), row.length = w) ∧
    (okSnd (create_synthetic_offset h w "multipixel" B)).length = h ∧
    (∀ row ∈ okSnd (create_synthetic_offset h w "multipixel" B), row.length = w) ∧
    ((okFst (create_synthetic_offset h w "multipixel" B)).getD r []).getD c 0 =
      (1 : ℚ) + (c / B : ℕ) ∧
    ((okSnd (create_synthetic_offset h w "multipixel" B)).getD r []).getD c 0 =
      (-1 : ℚ) - (r / B : ℕ) := by
  have hsub : create_synthetic_offset h w "subpixel" B =
      .ok ((List.range h).map (fun _r => (List.range w).map
              (fun c => (1 / 10 : ℚ) * (c / B : ℕ) + 1 / 10)),
           (List.range h).map (fun r => (List.range w).map
              (fun _c => -((1 / 10 : ℚ) * (r / B : ℕ)) - 1 / 10))) := by
    rw [create_synthetic_offset, if_pos rfl]
  have hmul : create_synthetic_offset h w "multipixel" B =
      .ok ((List.range h).map (fun _r => (List.range w).map
              (fun c => (1 : ℚ) + (c / B : ℕ))),
           (List.range h).map (fun r => (List.range w).map
              (fun _c => (-1 : ℚ) - (r / B : ℕ)))) := by
    rw [create_synthetic_offset, if_neg (by decide), if_pos rfl]
  rw [hsub, hmul]
  refine ⟨by simp [okFst], ?_, by simp [okSnd], ?_, ?_, ?_, by simp [okFst], ?_,
    by simp [okSnd], ?_, ?_, ?_⟩
  · exact (shape_range_map h w _).2
  · exact (shape_range_map h w _).2
  · rw [okFst, getD_range_map h _ r hr, getD_range_map w _ c hc]
  · rw [okSnd, getD_range_map h _ r hr, getD_range_map w _ c hc]
  · exact (shape_range_map h w _).2
  · exact (shape_range_map h w _).2
  · rw [okFst, getD_range_map h _ r hr, getD_range_map w _ c hc]
  · rw [okSnd, getD_range_map h _ r hr, getD_range_map w _ c hc]

/-- Witness for C5 at a 1000 × 1000 image, block size 500, pixel
`(999, 999)` — the pixel of the spec's multipixel example `(2, −2)`. -/
theorem create_synthetic_offset_blocks_witness :
    (0 < 500) ∧ (999 < 1000) ∧
    ((okFst (create_synthetic_offset 1000 1000 "subpixel" 500)).length = 1000 ∧
     (∀ row ∈ okFst (create_synthetic_offset 1000 1000 "subpixel" 500), row.length = 1000) ∧
     (okSnd (create_synthetic_offset 1000 1000 "subpixel" 500)).length = 1000 ∧
     (∀ row ∈ okSnd (create_synthetic_offset 1000 1000 "subpixel" 500), row.length = 1000) ∧
     ((okFst (create_synthetic_offset 1000 1000 "subpixel" 500)).getD 999 []).getD 999 0 =
       (1 / 10 : ℚ) * (999 / 500 : ℕ) + 1 / 10 ∧
     ((okSnd (create_synthetic_offset 1000 1000 "subpixel" 500)).getD 999 []).getD 999 0 =
       -((1 / 10 : ℚ) * (999 / 500 : ℕ)) - 1 / 10 ∧
     (okFst (create_synthetic_offset 1000 1000 "multipixel" 500)).length = 1000 ∧
     (∀ row ∈ okFst (create_synthetic_offset 1000 1000 "multipixel" 500), row.length = 1000) ∧
     (okSnd (create_synthetic_offset 1000 1000 "multipixel" 500)).length = 1000 ∧
     (∀ row ∈ okSnd (create_synthetic_offset 1000 1000 "multipixel" 500), row.length = 1000) ∧
     ((okFst (create_synthetic_offset 1000 1000 "multipixel" 500)).getD 999 []).getD 999 0 =
       (1 : ℚ) + (999 / 500 : ℕ) ∧
     ((okSnd (create_synthetic_offset 1000 1000 "multipixel" 500)).getD 999 []).getD 999 0 =
       (-1 : ℚ) - (999 / 500 : ℕ)) :=
  ⟨by decide, by decide,
   create_synthetic_offset_blocks 1000 1000 500 999 999 (by decide) (by decide) (by decide)⟩

/-! ## C7 -/

/-- Bilinear interpolation of a constant field is that constant: the four
(edge-clamped) neighbour samples coincide and the weights sum to one. -/
theorem bilinearNearest_const (h w : ℕ) (k : ℚ) (y x : ℚ) :
    bilinearNearest (fun _ _ => k) h w y x = k := by
  rw [bilinearNearest]
  ring

/-- C7: applying the synthetic offset with order-1 interpolation and nearest
boundary clamping to a constant-valued image gives back an image of the same
shape equal to that constant everywhere, for every pair of shift arrays. -/
theorem apply_synthetic_offset_const (h w : ℕ) (k : ℚ) (sx sy : ℕ → ℕ → ℚ)
    (r c : ℕ) (hr : r < h) (hc : c < w) :
    (apply_synthetic_offset (fun _ _ => k) h w sx sy).length = h ∧
    (∀ row ∈ apply_synthetic_offset (fun _ _ => k) h w sx sy, row.length = w) ∧
    ((apply_synthetic_offset (fun _ _ => k) h w sx sy).getD r []).getD c 0 = k := by
  refine ⟨by simp [apply_synthetic_offset], ?_, ?_⟩
  · exact (shape_range_map h w _).2
  · rw [apply_synthetic_offset, getD_range_map h _ r hr, getD_range_map w _ c hc]
    exact bilinearNearest_const h w k _ _

/-- Witness for C7: a 2 × 2 image of constant 3 under the half-pixel shift
field. -/
theorem apply_synthetic_offset_const_witness :
    (1 < 2) ∧
    ((apply_synthetic_offset (fun _ _ => (3 : ℚ)) 2 2 (fun _ _ => 1 / 2)
        (fun _ _ => 1 / 2)).length = 2 ∧
     (∀ row ∈ apply_synthetic_offset (fun _ _ => (3 : ℚ)) 2 2 (fun _ _ => 1 / 2)
        (fun _ _ => 1 / 2), row.length = 2) ∧
     ((apply_synthetic_offset (fun _ _ => (3 : ℚ)) 2 2 (fun _ _ => 1 / 2)
        (fun _ _ => 1 / 2)).getD 1 []).getD 1 0 = 3) :=
  ⟨by decide,
   apply_synthetic_offset_const 2 2 3 (fun _ _ => 1 / 2) (fun _ _ => 1 / 2) 1 1
     (by decide) (by decide)⟩

/-! ## C6 -/

/-- C6 counterexample.  The claim states that density estimation on a
zero-observation sample fails with a descriptive domain error raised by the
module rather than a propagated library-internal failure.  On an empty
sample, `off_ice_errors` performs no emptiness check of its own: the error
that surfaces is the KDE library's internal one. -/
theorem empty_sample_library_error_cex :
    off_ice_errors_vec [] [] 10000 [] (fun _ => []) 3 =
      .error (.libraryError "scipy" "dataset input should have multiple elements") ∧
    (PyError.libraryError "scipy" "dataset input should have multiple elements").isLibraryInternal
      = true ∧
    (PyError.valueError "dataset input should have multiple elements").isLibraryInternal
      = false := by
  exact ⟨rfl, rfl, rfl⟩

/-- C6 (amended): a zero-observation sample never yields a silent empty
result — both `off_ice_errors` (vector mode) and `syn_shift_errors` fail —
but the failure is the propagated library-internal KDE error, not a
descriptive domain error raised by the module. -/
theorem empty_sample_fails_with_library_error (vxc vyc : List ℚ) (max_n : ℕ)
    (pick : List ℕ) (kdeFun : List (ℚ × ℚ) → List ℝ) (σ : ℝ)
    (ref_vx vx ref_vy vy : List ℚ) (kdeFun2 : List (ℚ × ℚ) → List ℝ) (σ2 : ℝ)
    (hx : removeNoData vxc = []) (hy : removeNoData vyc = [])
    (hs : (synShiftSample ref_vx vx ref_vy vy).1 = []) :
    off_ice_errors_vec vxc vyc max_n pick kdeFun σ =
      .error (.libraryError "scipy" "dataset input should have multiple elements") ∧
    syn_shift_errors ref_vx vx ref_vy vy kdeFun2 σ2 =
      .error (.libraryError "scipy" "dataset input should have multiple elements") := by
  constructor
  · simp [off_ice_errors_vec, hx, hy, vstack2, offIceFit, gaussianKdeSelf]
  · simp [syn_shift_errors, hs, gaussianKdeSelf]

/-- Witness for C6 (amended), at samples that filter to nothing. -/
theorem empty_sample_fails_with_library_error_witness :
    (removeNoData [-9999] = []) ∧ (removeNoData [] = []) ∧
    ((synShiftSample [0] [-9999] [0] [0]).1 = []) ∧
    (off_ice_errors_vec [-9999] [] 10000 [] (fun _ => []) 3 =
      .error (.libraryError "scipy" "dataset input should have multiple elements") ∧
     syn_shift_errors [0] [-9999] [0] [0] (fun _ => []) 3 =
      .error (.libraryError "scipy" "dataset input should have multiple elements")) :=
  ⟨by decide, by decide, by decide,
   empty_sample_fails_with_library_error [-9999] [] 10000 [] (fun _ => []) 3
     [0] [-9999] [0] [0] (fun _ => []) 3 (by decide) (by decide) (by decide)⟩

/-! ## C8 -/

/-- C8: any mode other than `subpixel` and `multipixel` makes
`create_synthetic_offset` fail with the invalid-argument error and produce
no shift arrays. -/
theorem create_synthetic_offset_invalid_mode (h w B : ℕ) (mode : String)
    (h1 : mode ≠ "subpixel") (h2 : mode ≠ "multipixel") :
    create_synthetic_offset h w mode B = .error (.valueError "Mode is not defined.") := by
  rw [create_synthetic_offset, if_neg h1, if_neg h2]

/-- Witness for C8 at the unrecognized mode string `banana`. -/
theorem create_synthetic_offset_invalid_mode_witness :
    ("banana" ≠ "subpixel") ∧ ("banana" ≠ "multipixel") ∧
    create_synthetic_offset 4 5 "banana" 500 =
      .error (.valueError "Mode is not defined.") :=
  ⟨by decide, by decide,
   create_synthetic_offset_invalid_mode 4 5 500 "banana" (by decide) (by decide)⟩

/-! ## C9 -/

/-- C9: every `mask_by_shp` call that reaches the rasterization step fails
with the unbound-name error on `features` — the name is bound nowhere at
module top level — for either accepted dataset representation and any
geometry and array inputs, so the documented masked array is never
returned. -/
theorem mask_by_shp_name_error {Geom Arr : Type} (geom : Geom) (array : Arr)
    (ds : DsKind) :
    mask_by_shp geom array ds = .error (.nameError "name features is not defined") ∧
    ∀ u : Unit, mask_by_shp geom array ds ≠ .ok u := by
  have hall : ∀ k : DsKind, mask_by_shp geom array k =
      .error (.nameError "name features is not defined") := by
    intro k
    cases k <;> rfl
  refine ⟨hall ds, ?_⟩
  intro u h
  rw [hall ds] at h
  exact Except.noConfusion h

/-! ## C10 -/

/-- C10: in scalar mode the histogram is computed through the axes handle
unconditionally, so a call with `plot = False` and no axes fails with an
attribute error on the `None` axes; the call returns successfully exactly
when `plot = True` or an explicit axes object is supplied. -/
theorem off_ice_errors_scalar_axes (v : List ℚ) :
    off_ice_errors_scalar v false none =
      .error (.attributeError "NoneType object has no attribute hist") ∧
    (∀ (plot : Bool) (ax : Option Axes),
      (∃ r, off_ice_errors_scalar v plot ax = .ok r) ↔ plot = true ∨ ax ≠ none) := by
  refine ⟨rfl, ?_⟩
  intro plot ax
  cases plot <;> cases ax <;> simp [off_ice_errors_scalar]
